import Mathlib

/-!
# Verification of the async raw-socket crate

A shallow embedding of `src/src/lib.rs`: the `RawSock::new` constructor
(raw AF_PACKET socket creation, interface-index resolution, bind, async
wrap) and the asynchronous `read`/`write` readiness loops.

OS calls (`libc::socket`, `libc::ioctl`, `libc::bind`, `libc::recv`,
`libc::send`) are external collaborators; they are modelled by explicit
oracles giving each call's result, and the embedding records the exact
sequence of OS calls issued together with their arguments, so that
claims about which syscalls happen (and with which arguments) are
statable.
-/

set_option autoImplicit false

namespace AsyncRaw

/-! ## Platform constants (Linux values used by the libc crate) -/

/-- `libc::IFNAMSIZ` on Linux. -/
def IFNAMSIZ : Nat := 16

/-- `libc::AF_PACKET` on Linux. -/
def AF_PACKET : Nat := 17

/-- `libc::SOCK_RAW` on Linux. -/
def SOCK_RAW : Nat := 3

/-- `libc::SOCK_NONBLOCK` on Linux (octal 0o4000). -/
def SOCK_NONBLOCK : Nat := 2048

/-- `libc::SIOCGIFINDEX` on Linux (0x8933). -/
def SIOCGIFINDEX : Nat := 35091

/-- `libc::EWOULDBLOCK` = `libc::EAGAIN` on Linux; `io::Error::last_os_error().kind()`
is `io::ErrorKind::WouldBlock` exactly for this errno. -/
def EWOULDBLOCK : Int := 11

/-- `libc::ETH_P_ALL`, the "all protocols" sentinel. -/
def ETH_P_ALL : Int := 3

/-! ## Data model -/

/-- `std::io::Error`: either an OS errno (`io::Error::last_os_error()`)
or a message-only error (`io::Error::other`). -/
inductive IOError where
  | osError (errno : Int)
  | other (msg : String)
deriving DecidableEq, Repr

/-- `SockOpts` from the source; `intf` is the interface name as its
byte sequence (the code reads it through `opts.intf.as_bytes()`). -/
structure SockOpts where
  protocol : Int
  intf : List Nat
deriving DecidableEq, Repr

/-- `libc::sockaddr_ll` as filled in by `RawSock::new`. The
`sll_protocol` field is modelled by its in-memory byte layout: the
source stores `u16::to_be(opts.protocol as u16)`, whose memory bytes
are the big-endian encoding of the low 16 bits of the protocol,
independent of platform endianness. -/
structure sockaddr_ll where
  sll_family : Nat
  sll_protocol : List Nat
  sll_ifindex : Int
  sll_hatype : Nat
  sll_pkttype : Nat
  sll_halen : Nat
  sll_addr : List Nat
deriving DecidableEq, Repr

/-- Big-endian byte pair of the low 16 bits of a `c_int`, i.e. the
memory image of `u16::to_be(x as u16)`. -/
def toBe16 (x : Int) : List Nat :=
  let v := (x % 65536).toNat
  [v / 256, v % 256]

/-- One OS call issued during construction, with its arguments.
`fcntl` and `close` are never issued by the source; they appear here so
that their absence from a recorded trace is statable. -/
inductive OsCall where
  | socket (domain : Nat) (ty : Nat) (protocol : Int)
  | ioctl (fd : Int) (request : Nat) (ifr_name : List Nat)
  | bind (fd : Int) (addr : sockaddr_ll)
  | fcntl (fd : Int) (cmd : Nat)
  | close (fd : Int)
deriving DecidableEq, Repr

/-- Oracle for the OS calls `RawSock::new` makes: the raw return value
of each call and the errno `io::Error::last_os_error()` would report
after each failing call, plus the `ifru_ifindex` the kernel writes into
the `ifreq` on a successful `SIOCGIFINDEX` ioctl. -/
structure OsCtor where
  socketRet : Int
  errnoSocket : Int
  ioctlRet : Int
  errnoIoctl : Int
  ifindex : Int
  bindRet : Int
  errnoBind : Int
deriving DecidableEq, Repr

/-- The wrapped handle: `RawSock` holds the descriptor registered for
readiness tracking. -/
structure RawSock where
  fd : Int
deriving DecidableEq, Repr

/-- Outcome of construction: the source returns `Result<Self, io::Error>`
but additionally contains an `.unwrap()` on the final wrap call, so a
panic is a possible outcome of the function as written. -/
inductive CtorOutcome where
  | ok (s : RawSock)
  | err (e : IOError)
  | panicked
deriving DecidableEq, Repr

/-- `true` exactly on the `panicked` outcome. -/
def CtorOutcome.isPanic : CtorOutcome → Bool
  | .panicked => true
  | _ => false

/-- Modelled from the spec: the final wrap call
(`AsyncFd::new(sock_fd)`, from the tokio crate, outside `src/`) "is
defined to always succeed and therefore requires no rollback"; it
registers the descriptor with the reactor and returns it wrapped. -/
def AsyncFdNew (fd : Int) : Except IOError Int :=
  .ok fd

/-- `true` iff the trace contains a `close` call. -/
def hasClose (t : List OsCall) : Bool :=
  t.any fun c =>
    match c with
    | .close _ => true
    | _ => false

/-- `true` iff the trace contains a `socket` call. -/
def hasSocket (t : List OsCall) : Bool :=
  t.any fun c =>
    match c with
    | .socket _ _ _ => true
    | _ => false

/-- The zero-padded `ifr_name` buffer: the source initialises the
16-byte array to zero and copies the name bytes into its prefix. -/
def ifrName (intf : List Nat) : List Nat :=
  intf ++ List.replicate (IFNAMSIZ - intf.length) 0

/-- The `sockaddr_ll` value the source builds before `bind`. -/
def mkSockaddr (protocol : Int) (ifindex : Int) : sockaddr_ll :=
  { sll_family := AF_PACKET
    sll_protocol := toBe16 protocol
    sll_ifindex := ifindex
    sll_hatype := 0
    sll_pkttype := 0
    sll_halen := 0
    sll_addr := List.replicate 8 0 }

/-- `RawSock::new` from the source, instrumented with the trace of OS
calls it issues, in order. Mirrors `src/src/lib.rs` lines 17–67:
length guard first (no OS call), then `socket(AF_PACKET,
SOCK_RAW | SOCK_NONBLOCK, protocol)`, then `ioctl(SIOCGIFINDEX)` on the
zero-padded name buffer, then `bind` with the constructed
`sockaddr_ll`, then `AsyncFd::new(sock_fd).unwrap()`. Each failing OS
call returns `last_os_error` at once; the source issues no `close` on
any path. -/
def RawSock.new (opts : SockOpts) (os : OsCtor) : CtorOutcome × List OsCall :=
  if IFNAMSIZ ≤ opts.intf.length then
    (.err (.other "invalid interface name - exceeds length"), [])
  else
    let sock_fd := os.socketRet
    let calls := [OsCall.socket AF_PACKET (SOCK_RAW ||| SOCK_NONBLOCK) opts.protocol]
    if sock_fd < 0 then
      (.err (.osError os.errnoSocket), calls)
    else
      let calls := calls ++ [OsCall.ioctl sock_fd SIOCGIFINDEX (ifrName opts.intf)]
      if os.ioctlRet < 0 then
        (.err (.osError os.errnoIoctl), calls)
      else
        let addr := mkSockaddr opts.protocol os.ifindex
        let calls := calls ++ [OsCall.bind sock_fd addr]
        if os.bindRet < 0 then
          (.err (.osError os.errnoBind), calls)
        else
          match AsyncFdNew sock_fd with
          | .ok fd => (.ok ⟨fd⟩, calls)
          | .error _ => (.panicked, calls)

/-! ## The read/write readiness loops

`RawSock::read` and `RawSock::write` (lines 69–119) have the same
shape: `loop { let guard = self.fd.readable().await?; let res =
libc::recv(...); if res < 0 { match last_os_error().kind() {
WouldBlock => continue, _ => return Err } } else { return Ok(res) } }`.

Each loop iteration is driven by the environment: either the
readiness await itself resolves to an error (the `?` propagates it
before any I/O call), or it yields a guard and exactly one
`recv`/`send` is issued, whose outcome the OS chooses. A finite list
of such per-iteration outcomes is the oracle; the loop is recursion
on that list. -/

/-- Result of one `libc::recv`/`libc::send` call: `ok n` for a
non-negative return of `n` bytes, `err errno` for a negative return
with `last_os_error()` reporting `errno`. -/
inductive IoRes where
  | ok (n : Nat)
  | err (errno : Int)
deriving DecidableEq, Repr

/-- One loop iteration's environment behaviour: the readiness await
returns an error, or it yields a guard and the subsequent I/O call
has result `r`. -/
inductive Step where
  | awaitErr (e : IOError)
  | attempt (r : IoRes)
deriving DecidableEq, Repr

/-- Result of a read/write operation, plus `incomplete` when the
oracle list is exhausted while the loop is still running. -/
inductive OpResult where
  | ok (n : Nat)
  | err (e : IOError)
  | incomplete
deriving DecidableEq, Repr

/-- `RawSock::read` (lines 69–93): the loop body, as recursion over
the per-iteration oracle. The second component counts the `recv`
calls issued. `continue` happens exactly on a negative return whose
errno is `EWOULDBLOCK`; any other errno returns that error; a
non-negative return `n` returns `Ok(n)`; an await error is returned
by `?` before `recv` is called. -/
def readLoop : List Step → OpResult × Nat
  | [] => (.incomplete, 0)
  | .awaitErr e :: _ => (.err e, 0)
  | .attempt (.ok n) :: _ => (.ok n, 1)
  | .attempt (.err errno) :: rest =>
    if errno = EWOULDBLOCK then
      let (r, k) := readLoop rest
      (r, k + 1)
    else
      (.err (.osError errno), 1)

/-- `RawSock::write` (lines 95–119): textually the same loop as
`read` with `writable`/`send` in place of `readable`/`recv`; the
second component counts the `send` calls issued. -/
def writeLoop : List Step → OpResult × Nat
  | [] => (.incomplete, 0)
  | .awaitErr e :: _ => (.err e, 0)
  | .attempt (.ok n) :: _ => (.ok n, 1)
  | .attempt (.err errno) :: rest =>
    if errno = EWOULDBLOCK then
      let (r, k) := writeLoop rest
      (r, k + 1)
    else
      (.err (.osError errno), 1)

/-! ## Readiness-caching semantics of the wrapped handle

The handle wrapper used by the source (tokio's `AsyncFd`, outside
`src/`) caches readiness: once the reactor delivers a readiness
event, the cached readiness stays set until the user explicitly
clears it through `AsyncFdReadyGuard::clear_ready` (or `try_io`),
and `readable().await` / `writable().await` completes immediately,
without suspending, while the cached readiness is set. The source's
loops take the guard immutably and never clear it, so in this model
the `ready` flag, once true, is never reset by the loop. -/

/-- Result of a read/write run under the readiness-caching model:
`done n used` / `failed e used` carry how many fresh reactor
notifications the run consumed beyond the initially cached readiness;
`blocked` means the loop suspended awaiting a notification that never
arrives; `exhausted` means the I/O oracle ran out. -/
inductive TokRes where
  | done (n : Nat) (used : Nat)
  | failed (e : IOError) (used : Nat)
  | blocked
  | exhausted
deriving DecidableEq, Repr

/-- `RawSock::read` under the readiness-caching model. `attempts` is
the oracle of `recv` results, `ready` the cached readiness of the
handle, `notifs` how many fresh readiness notifications the reactor
will still deliver, `used` the accumulator of consumed notifications.
When `ready` is set, the await completes immediately and `ready`
stays set across `continue` (the source never calls `clear_ready`);
when it is clear the task suspends until a notification arrives and
sets it. -/
def readTok : List IoRes → Bool → Nat → Nat → TokRes
  | [], _, _, _ => .exhausted
  | r :: rest, ready, notifs, used =>
    if ready then
      match r with
      | .ok n => .done n used
      | .err errno =>
        if errno = EWOULDBLOCK then readTok rest true notifs used
        else .failed (.osError errno) used
    else
      match notifs with
      | 0 => .blocked
      | m + 1 =>
        match r with
        | .ok n => .done n (used + 1)
        | .err errno =>
          if errno = EWOULDBLOCK then readTok rest true m (used + 1)
          else .failed (.osError errno) (used + 1)

/-- `RawSock::write` under the readiness-caching model; the source's
write loop is textually the write-side copy of the read loop and
likewise never clears the guard. -/
def writeTok : List IoRes → Bool → Nat → Nat → TokRes
  | [], _, _, _ => .exhausted
  | r :: rest, ready, notifs, used =>
    if ready then
      match r with
      | .ok n => .done n used
      | .err errno =>
        if errno = EWOULDBLOCK then writeTok rest true notifs used
        else .failed (.osError errno) used
    else
      match notifs with
      | 0 => .blocked
      | m + 1 =>
        match r with
        | .ok n => .done n (used + 1)
        | .err errno =>
          if errno = EWOULDBLOCK then writeTok rest true m (used + 1)
          else .failed (.osError errno) (used + 1)

/-! ## The loopback round-trip -/

/-- Modelled from the spec: the kernel side of a loopback-bound
channel with protocol "all" (the round-trip scenario of section 8 and
the `test_creation` reference test). The socket buffer is a frame
queue: a `send` of a frame enqueues it whole and reports its full
length accepted; a `recv` with buffer capacity `cap` dequeues the
oldest frame truncated to `cap` bytes, or reports would-block when
the queue is empty. -/
structure LoopOS where
  queue : List (List Nat)
deriving DecidableEq, Repr

/-- Modelled from the spec: loopback `send`. -/
def loopSend (os : LoopOS) (frame : List Nat) : LoopOS × Nat :=
  ({ queue := os.queue ++ [frame] }, frame.length)

/-- Modelled from the spec: loopback `recv` into a buffer of capacity
`cap`; `none` is the would-block outcome. -/
def loopRecv (os : LoopOS) (cap : Nat) : LoopOS × Option (List Nat) :=
  match os.queue with
  | [] => (os, none)
  | f :: rest => ({ queue := rest }, some (f.take cap))

/-- `RawSock::write` specialised to the loopback OS: the await yields
a guard, the single `send` accepts the whole frame and its length is
returned. -/
def lbWrite (os : LoopOS) (frame : List Nat) : LoopOS × Nat :=
  loopSend os frame

/-- `RawSock::read` specialised to the loopback OS: each iteration
issues one `recv`; on would-block (empty queue) the loop continues,
otherwise the received bytes are returned. `fuel` bounds the number
of iterations unrolled. -/
def lbRead : Nat → LoopOS → Nat → Option (LoopOS × List Nat)
  | 0, _, _ => none
  | fuel + 1, os, cap =>
    match loopRecv os cap with
    | (os', none) => lbRead fuel os' cap
    | (os', some data) => some (os', data)

/-- `true` iff the call is a `socket` call. -/
def isSocketCall : OsCall → Bool
  | .socket _ _ _ => true
  | _ => false

/-- `true` iff the call is an `fcntl` (flag-mutation) call. -/
def isFcntlCall : OsCall → Bool
  | .fcntl _ _ => true
  | _ => false

/-! ## Theorems -/

/-- C2: for every configuration whose interface-name length is at least
`IFNAMSIZ` (including exactly `IFNAMSIZ`), `RawSock::new` returns the
configuration error and its OS-call trace is empty — no syscall is
issued before the length check rejects, whatever the OS oracle. -/
theorem new_rejects_long_name (opts : SockOpts) (os : OsCtor)
    (h : IFNAMSIZ ≤ opts.intf.length) :
    RawSock.new opts os =
      (.err (.other "invalid interface name - exceeds length"), []) := by
  simp [RawSock.new, h]

/-- Witness for C2 at a name of length exactly `IFNAMSIZ` (16 bytes). -/
theorem new_rejects_long_name_witness :
    IFNAMSIZ ≤ (List.replicate 16 108).length ∧
    RawSock.new ⟨ETH_P_ALL, List.replicate 16 108⟩ ⟨5, 0, 0, 0, 1, 0, 0⟩ =
      (.err (.other "invalid interface name - exceeds length"), []) :=
  ⟨by decide, new_rejects_long_name ⟨ETH_P_ALL, List.replicate 16 108⟩
    ⟨5, 0, 0, 0, 1, 0, 0⟩ (by decide)⟩

/-- C6: for every valid configuration and succeeding OS calls,
construction succeeds and its trace contains exactly one `socket`
call — with the packet family, the raw type carrying the non-blocking
flag in that single creation call, and the requested protocol — and
no `fcntl` flag-mutation call at all. -/
theorem new_socket_nonblocking (opts : SockOpts) (os : OsCtor)
    (h : opts.intf.length < IFNAMSIZ) (hs : 0 ≤ os.socketRet)
    (hi : 0 ≤ os.ioctlRet) (hb : 0 ≤ os.bindRet) :
    (RawSock.new opts os).1 = .ok ⟨os.socketRet⟩ ∧
    (RawSock.new opts os).2.filter isSocketCall =
      [OsCall.socket AF_PACKET (SOCK_RAW ||| SOCK_NONBLOCK) opts.protocol] ∧
    (RawSock.new opts os).2.filter isFcntlCall = [] := by
  have h1 : ¬ IFNAMSIZ ≤ opts.intf.length := by omega
  have h2 : ¬ os.socketRet < 0 := by omega
  have h3 : ¬ os.ioctlRet < 0 := by omega
  have h4 : ¬ os.bindRet < 0 := by omega
  simp [RawSock.new, h1, h2, h3, h4, AsyncFdNew, isSocketCall, isFcntlCall]

/-- Witness for C6 on the interface name `"lo"` and interface index 1. -/
theorem new_socket_nonblocking_witness :
    ([108, 111] : List Nat).length < IFNAMSIZ ∧ (0 : Int) ≤ 4 ∧
    (RawSock.new ⟨ETH_P_ALL, [108, 111]⟩ ⟨4, 0, 0, 0, 1, 0, 0⟩).1 = .ok ⟨4⟩ ∧
    (RawSock.new ⟨ETH_P_ALL, [108, 111]⟩ ⟨4, 0, 0, 0, 1, 0, 0⟩).2.filter isSocketCall =
      [OsCall.socket AF_PACKET (SOCK_RAW ||| SOCK_NONBLOCK) ETH_P_ALL] ∧
    (RawSock.new ⟨ETH_P_ALL, [108, 111]⟩ ⟨4, 0, 0, 0, 1, 0, 0⟩).2.filter isFcntlCall = [] :=
  ⟨by decide, by decide,
    (new_socket_nonblocking ⟨ETH_P_ALL, [108, 111]⟩ ⟨4, 0, 0, 0, 1, 0, 0⟩
      (by decide) (by decide) (by decide) (by decide)).1,
    (new_socket_nonblocking ⟨ETH_P_ALL, [108, 111]⟩ ⟨4, 0, 0, 0, 1, 0, 0⟩
      (by decide) (by decide) (by decide) (by decide)).2.1,
    (new_socket_nonblocking ⟨ETH_P_ALL, [108, 111]⟩ ⟨4, 0, 0, 0, 1, 0, 0⟩
      (by decide) (by decide) (by decide) (by decide)).2.2⟩

/-- C7: for every valid configuration and succeeding OS calls, the
name→index query is issued on the fixed-size (`IFNAMSIZ`-byte) buffer
holding exactly the name bytes followed by zeros, and the socket is
then bound to a `sockaddr_ll` whose fields are the packet address
family, the big-endian-encoded protocol selector, and the interface
index read back from the query response — the full trace is exactly
these calls. -/
theorem new_query_and_bind (opts : SockOpts) (os : OsCtor)
    (h : opts.intf.length < IFNAMSIZ) (hs : 0 ≤ os.socketRet)
    (hi : 0 ≤ os.ioctlRet) (hb : 0 ≤ os.bindRet) :
    (RawSock.new opts os).2 =
      [OsCall.socket AF_PACKET (SOCK_RAW ||| SOCK_NONBLOCK) opts.protocol,
       OsCall.ioctl os.socketRet SIOCGIFINDEX
         (opts.intf ++ List.replicate (IFNAMSIZ - opts.intf.length) 0),
       OsCall.bind os.socketRet
         { sll_family := AF_PACKET
           sll_protocol := toBe16 opts.protocol
           sll_ifindex := os.ifindex
           sll_hatype := 0
           sll_pkttype := 0
           sll_halen := 0
           sll_addr := List.replicate 8 0 }] ∧
    (opts.intf ++ List.replicate (IFNAMSIZ - opts.intf.length) 0).length = IFNAMSIZ := by
  have h1 : ¬ IFNAMSIZ ≤ opts.intf.length := by omega
  have h2 : ¬ os.socketRet < 0 := by omega
  have h3 : ¬ os.ioctlRet < 0 := by omega
  have h4 : ¬ os.bindRet < 0 := by omega
  refine ⟨?_, ?_⟩
  · simp [RawSock.new, h1, h2, h3, h4, AsyncFdNew, ifrName, mkSockaddr]
  · simp only [List.length_append, List.length_replicate]
    omega

/-- Witness for C7 on the interface name `"eth0"`, protocol
`ETH_P_IPV6` (0x86dd), interface index 2. -/
theorem new_query_and_bind_witness :
    ([101, 116, 104, 48] : List Nat).length < IFNAMSIZ ∧
    (RawSock.new ⟨34525, [101, 116, 104, 48]⟩ ⟨7, 0, 0, 0, 2, 0, 0⟩).2 =
      [OsCall.socket AF_PACKET (SOCK_RAW ||| SOCK_NONBLOCK) 34525,
       OsCall.ioctl 7 SIOCGIFINDEX
         ([101, 116, 104, 48] ++ List.replicate (IFNAMSIZ - 4) 0),
       OsCall.bind 7
         { sll_family := AF_PACKET
           sll_protocol := toBe16 34525
           sll_ifindex := 2
           sll_hatype := 0
           sll_pkttype := 0
           sll_halen := 0
           sll_addr := List.replicate 8 0 }] ∧
    (([101, 116, 104, 48] : List Nat) ++ List.replicate (IFNAMSIZ - 4) 0).length = IFNAMSIZ :=
  ⟨by decide,
    (new_query_and_bind ⟨34525, [101, 116, 104, 48]⟩ ⟨7, 0, 0, 0, 2, 0, 0⟩
      (by decide) (by decide) (by decide) (by decide)).1,
    (new_query_and_bind ⟨34525, [101, 116, 104, 48]⟩ ⟨7, 0, 0, 0, 2, 0, 0⟩
      (by decide) (by decide) (by decide) (by decide)).2⟩

/-- C1 (refuted by the code): with `socket` succeeding (descriptor 5)
and the `SIOCGIFINDEX` ioctl failing with errno 19 (`ENODEV`),
`RawSock::new` returns the OS's last error, but its trace contains
the `socket` call and no `close` call: the already-created descriptor
is leaked on this failure path. The `bind`-failure path likewise
issues no `close`. -/
theorem new_leaks_fd_on_ioctl_failure :
    RawSock.new ⟨ETH_P_ALL, [108, 111]⟩ ⟨5, 0, -1, 19, 0, 0, 0⟩ =
      (.err (.osError 19),
       [OsCall.socket AF_PACKET (SOCK_RAW ||| SOCK_NONBLOCK) ETH_P_ALL,
        OsCall.ioctl 5 SIOCGIFINDEX ([108, 111] ++ List.replicate 14 0)]) ∧
    hasSocket (RawSock.new ⟨ETH_P_ALL, [108, 111]⟩ ⟨5, 0, -1, 19, 0, 0, 0⟩).2 = true ∧
    hasClose (RawSock.new ⟨ETH_P_ALL, [108, 111]⟩ ⟨5, 0, -1, 19, 0, 0, 0⟩).2 = false ∧
    hasClose (RawSock.new ⟨ETH_P_ALL, [108, 111]⟩ ⟨5, 0, 0, 0, 1, -1, 13⟩).2 = false := by
  decide

/-- C9: `RawSock::new` never reaches the panic branch of the final
wrap call: for every configuration and every OS oracle, the outcome
is a plain `Ok`/`Err` result, never a panic. -/
theorem new_never_panics (opts : SockOpts) (os : OsCtor) :
    (RawSock.new opts os).1.isPanic = false := by
  simp only [RawSock.new, AsyncFdNew]
  split
  · rfl
  · split
    · rfl
    · split
      · rfl
      · split
        · rfl
        · rfl

/-- Witness for C9 at a concrete configuration and oracle. -/
theorem new_never_panics_witness :
    (RawSock.new ⟨ETH_P_ALL, [101, 116, 104, 49]⟩ ⟨6, 0, 0, 0, 3, 0, 0⟩).1.isPanic = false :=
  new_never_panics ⟨ETH_P_ALL, [101, 116, 104, 49]⟩ ⟨6, 0, 0, 0, 3, 0, 0⟩

/-- C3: for every finite number `n` of would-block results after
readiness signals followed by a success transferring `k` bytes, both
`read` and `write` return success with exactly `k` bytes, issuing
exactly `n + 1` I/O calls: the would-block condition is never
surfaced as an error, the loop never returns early, and no retry
bound exists (the statement holds for every `n`). -/
theorem read_write_absorb_would_block (n k : Nat) (rest : List Step) :
    readLoop (List.replicate n (Step.attempt (.err EWOULDBLOCK)) ++
      Step.attempt (.ok k) :: rest) = (.ok k, n + 1) ∧
    writeLoop (List.replicate n (Step.attempt (.err EWOULDBLOCK)) ++
      Step.attempt (.ok k) :: rest) = (.ok k, n + 1) := by
  induction n with
  | zero => simp [readLoop, writeLoop]
  | succ m ih =>
    simp only [List.replicate_succ, List.cons_append, readLoop, writeLoop]
    simp [List.append_eq, ih.1, ih.2]

/-- Witness for C3: three spurious would-blocks, then a 5-byte
transfer; both loops return 5 bytes after exactly four I/O calls. -/
theorem read_write_absorb_would_block_witness :
    readLoop (List.replicate 3 (Step.attempt (.err EWOULDBLOCK)) ++
      Step.attempt (.ok 5) :: []) = (.ok 5, 4) ∧
    writeLoop (List.replicate 3 (Step.attempt (.err EWOULDBLOCK)) ++
      Step.attempt (.ok 5) :: []) = (.ok 5, 4) :=
  ⟨(read_write_absorb_would_block 3 5 []).1,
    (read_write_absorb_would_block 3 5 []).2⟩

/-- C5: for every read or write run in which, after any number of
absorbed would-block results, the I/O call fails with an errno other
than `EWOULDBLOCK`, the operation returns exactly that OS error, and
the failing call is the last I/O call issued (no further attempt,
whatever steps would follow). -/
theorem read_write_propagate_error (n : Nat) (e : Int) (rest : List Step)
    (h : e ≠ EWOULDBLOCK) :
    readLoop (List.replicate n (Step.attempt (.err EWOULDBLOCK)) ++
      Step.attempt (.err e) :: rest) = (.err (.osError e), n + 1) ∧
    writeLoop (List.replicate n (Step.attempt (.err EWOULDBLOCK)) ++
      Step.attempt (.err e) :: rest) = (.err (.osError e), n + 1) := by
  induction n with
  | zero => simp [readLoop, writeLoop, h]
  | succ m ih =>
    simp only [List.replicate_succ, List.cons_append, readLoop, writeLoop]
    simp [List.append_eq, ih.1, ih.2]

/-- Witness for C5: two spurious would-blocks, then errno 111
(`ECONNREFUSED`); the operation fails with exactly that error after
exactly three I/O calls. -/
theorem read_write_propagate_error_witness :
    (111 : Int) ≠ EWOULDBLOCK ∧
    readLoop (List.replicate 2 (Step.attempt (.err EWOULDBLOCK)) ++
      Step.attempt (.err 111) :: []) = (.err (.osError 111), 3) ∧
    writeLoop (List.replicate 2 (Step.attempt (.err EWOULDBLOCK)) ++
      Step.attempt (.err 111) :: []) = (.err (.osError 111), 3) :=
  ⟨by decide,
    (read_write_propagate_error 2 111 [] (by decide)).1,
    (read_write_propagate_error 2 111 [] (by decide)).2⟩

/-- C10: if the readiness await itself resolves to an error, both
`read` and `write` return that error immediately and issue zero
`recv`/`send` calls for that attempt. -/
theorem read_write_await_error (e : IOError) (rest : List Step) :
    readLoop (Step.awaitErr e :: rest) = (.err e, 0) ∧
    writeLoop (Step.awaitErr e :: rest) = (.err e, 0) :=
  ⟨rfl, rfl⟩

/-- Witness for C10: an await failing with errno 9 (`EBADF`) is
returned at once with zero I/O calls. -/
theorem read_write_await_error_witness :
    readLoop (Step.awaitErr (.osError 9) :: []) = (.err (.osError 9), 0) ∧
    writeLoop (Step.awaitErr (.osError 9) :: []) = (.err (.osError 9), 0) :=
  ⟨(read_write_await_error (.osError 9) []).1,
    (read_write_await_error (.osError 9) []).2⟩

/-- C4 (refuted by the code): starting from a single already-consumed
readiness signal (`ready = true`) with the reactor delivering no
further notification ever (`notifs = 0`), a would-block result is
followed by another I/O attempt that completes — `done 7 0` means the
run finished having consumed zero fresh notifications. The loop's
next await fires on the same stale cached readiness instead of
suspending, because the guard is never cleared; under the claim the
run would have to suspend forever (`blocked`). -/
theorem stale_readiness_not_rearmed :
    readTok [IoRes.err EWOULDBLOCK, IoRes.ok 7] true 0 0 = .done 7 0 ∧
    writeTok [IoRes.err EWOULDBLOCK, IoRes.ok 7] true 0 0 = .done 7 0 := by
  decide

/-- C8: writing a frame of length `L` on the loopback channel and
then reading into a buffer of capacity at least `L` accepts all `L`
bytes and returns exactly the written byte sequence. -/
theorem loopback_round_trip (frame : List Nat) (cap : Nat)
    (h : frame.length ≤ cap) :
    (lbWrite ⟨[]⟩ frame).2 = frame.length ∧
    lbRead 1 (lbWrite ⟨[]⟩ frame).1 cap = some (⟨[]⟩, frame) := by
  refine ⟨rfl, ?_⟩
  simp [lbWrite, loopSend, lbRead, loopRecv, List.take_of_length_le h]

/-- Witness for C8: a 4-byte frame read back through a 128-byte
buffer. -/
theorem loopback_round_trip_witness :
    ([1, 2, 3, 4] : List Nat).length ≤ 128 ∧
    (lbWrite ⟨[]⟩ [1, 2, 3, 4]).2 = ([1, 2, 3, 4] : List Nat).length ∧
    lbRead 1 (lbWrite ⟨[]⟩ [1, 2, 3, 4]).1 128 = some (⟨[]⟩, [1, 2, 3, 4]) :=
  ⟨by decide,
    (loopback_round_trip [1, 2, 3, 4] 128 (by decide)).1,
    (loopback_round_trip [1, 2, 3, 4] 128 (by decide)).2⟩

end AsyncRaw
